import Mathlib

/-!
# Verification of `song_splitter.py`

A shallow embedding of the Song-Splitter program and proofs of its
specification claims.  The program downloads the audio track of a video
(`Downloader`), then scrapes timestamp links from the video page and cuts
the audio file into clips (`Splitter`).

Modelling conventions:
* Python strings are Lean `String`s; character-level operations act on
  `String.data` so that everything reduces in the kernel.
* A Python function that can raise returns an `Option`/error-sum: `none`
  (or an explicit error value) stands for a raised exception, *except*
  where noted: `get_time_links` genuinely returns Python `None` on a
  caught `HTTPError`, which we model as a normally returned `none`.
* External collaborators (pytube, urllib, BeautifulSoup, moviepy) are
  opaque: their possible outcomes are enumerated as explicit input data
  (`ResolveOutcome`, `FetchOutcome`, a `loadable` predicate), and the
  embedding reproduces exactly what the Python code does with each
  outcome.
-/

/-- Python `str.split(":")`, acting on the character list of the string.
`"".split(":") = [""]`, `"a:b".split(":") = ["a","b"]`, `":".split(":") = ["",""]`. -/
def splitOnColon : List Char → List (List Char)
  | [] => [[]]
  | c :: rest =>
    if c = ':' then [] :: splitOnColon rest
    else
      match splitOnColon rest with
      | [] => [[c]]
      | f :: fs => (c :: f) :: fs

/-- Value of a non-empty list of decimal digits, `none` if empty or any
character is not a digit. -/
def digitsVal (cs : List Char) : Option Nat :=
  if cs = [] then none
  else if cs.all (fun c => c.isDigit) then
    some (cs.foldl (fun n c => 10 * n + (c.toNat - '0'.toNat)) 0)
  else none

/-- Strip leading and trailing whitespace characters. -/
def trimWs (cs : List Char) : List Char :=
  ((cs.dropWhile Char.isWhitespace).reverse.dropWhile Char.isWhitespace).reverse

/-- Python `int(s)`: optional surrounding whitespace, optional sign, then
one or more decimal digits; `none` models the raised `ValueError` on any
other input (e.g. `int("abc")`, `int("")`). -/
def pyInt (cs : List Char) : Option Int :=
  match trimWs cs with
  | '-' :: ds => (digitsVal ds).map (fun n => -(n : Int))
  | '+' :: ds => (digitsVal ds).map (fun n => (n : Int))
  | ds => (digitsVal ds).map (fun n => (n : Int))

/-- `Splitter.__time_str_to_tuple`: `tuple(map(int, time_str.split(":")))`.
The resulting Python tuple is modelled as a `List Int` (the source puts no
bound on its length); `none` models the `ValueError` raised by `int` on a
non-numeric field. -/
def time_str_to_tuple (time_str : String) : Option (List Int) :=
  (splitOnColon time_str.data).mapM pyInt

/-- The parsed offset of a marker, defaulting to the empty tuple; used only
to state theorems about markers that are known to parse. -/
def offsetOf (t : String) : List Int :=
  (time_str_to_tuple t).getD []

/-- `"clip{}.mp3".format(i)`. -/
def clipName (i : Nat) : String :=
  "clip" ++ toString i ++ ".mp3"

/-- One output file written by `split_songs`: its name and the
`(start_time, end_time)` pair handed to `audio.subclip` (`end = none`
models Python `None`, moviepy's end-of-file sentinel). -/
structure WrittenClip where
  name : String
  start : List Int
  stop : Option (List Int)
deriving Repr, DecidableEq

/-- The exceptions that can escape `split_songs`. -/
inductive SplitError where
  /-- `ValueError` raised by `int()` inside `__time_str_to_tuple`. -/
  | malformedTime (s : String)
  /-- `TypeError` raised by `len(None)` when `__get_time_links` returned `None`. -/
  | lenOfNone
  /-- failure of `AudioFileClip(filename)` to open the audio file. -/
  | audioLoad (filename : String)
  /-- an uncaught `URLError` propagating out of `__get_time_links`. -/
  | urlError (msg : String)
deriving Repr, DecidableEq

/-- The `for i in range(0, len(times))` loop of `Splitter.split_songs`,
threading the list of files written so far (`fs`, the on-disk state).
At index `i` it parses `times[i]` as the start, parses `times[i+1]` as the
end unless `i` is last (then the end is `None`), and writes
`clip{i+1}.mp3`; a parse failure raises, leaving the files already
written untouched. -/
def splitGo : List String → Nat → List WrittenClip → List WrittenClip × Option SplitError
  | [], _, fs => (fs, none)
  | t :: rest, i, fs =>
    match time_str_to_tuple t with
    | none => (fs, some (SplitError.malformedTime t))
    | some start =>
      match rest with
      | [] => (fs ++ [⟨clipName (i + 1), start, none⟩], none)
      | next :: _ =>
        match time_str_to_tuple next with
        | none => (fs, some (SplitError.malformedTime next))
        | some stop => splitGo rest (i + 1) (fs ++ [⟨clipName (i + 1), start, some stop⟩])

/-- `Splitter.split_songs` restricted to its core loop, applied to an
already-scraped marker list (audio successfully loaded): returns the files
written and the exception raised, if any. -/
def split_songs (times : List String) : List WrittenClip × Option SplitError :=
  splitGo times 0 []

/-- An anchor element of the scraped page, as exposed by the HTML-parse
capability: its `href` attribute and its text content. -/
structure Anchor where
  href : String
  text : String
deriving Repr, DecidableEq

/-- Outcome of `urlopen(self.url)`: the fetched page (its anchor elements,
in page order), an `HTTPError`, or another `URLError` (e.g. DNS failure),
which the source does not catch. -/
inductive FetchOutcome where
  | page (anchors : List Anchor)
  | httpError (msg : String)
  | urlError (msg : String)
deriving Repr, DecidableEq

/-- `Splitter.__get_time_links`.  `Except.error` models an uncaught
exception; `Except.ok none` models a *normal return of Python `None`*:
on `HTTPError` the source only prints the error, so the function falls
off the end and returns `None`.  On success it returns the text of every
anchor whose `href` is `"#"` (`bsObj.findAll("a", {"href": "#"})`), in
page order. -/
def get_time_links : FetchOutcome → Except String (Option (List String))
  | FetchOutcome.page anchors =>
      Except.ok (some ((anchors.filter (fun a => a.href == "#")).map (fun a => a.text)))
  | FetchOutcome.httpError _ => Except.ok none
  | FetchOutcome.urlError msg => Except.error msg

/-- The spec's own description of `fetchTimestampMarkers`, written from its
words and independently of the implementation: the text of every anchor
element whose `href` equals `"#"`, in page order.  Refinement companion
used to state the extraction claim. -/
def specTimestampMarkers : List Anchor → List String
  | [] => []
  | a :: rest =>
    if a.href = "#" then a.text :: specTimestampMarkers rest
    else specTimestampMarkers rest

/-- `Splitter.split_songs` in full: `AudioFileClip(self.filename)` first
(`loadable` says which paths the audio capability can open), then
`times = self.__get_time_links()`, then the clip loop.  `len(times)`
raises `TypeError` when `times` is `None`. -/
def split_songs_run (filename : String) (loadable : String → Bool)
    (fetch : FetchOutcome) : List WrittenClip × Option SplitError :=
  if loadable filename then
    match get_time_links fetch with
    | Except.error msg => ([], some (SplitError.urlError msg))
    | Except.ok none => ([], some SplitError.lenOfNone)
    | Except.ok (some times) => splitGo times 0 []
  else ([], some (SplitError.audioLoad filename))

/-- The `Downloader` object's attributes. -/
structure Downloader where
  url : String
  filename : String
  file_size : Nat
deriving Repr, DecidableEq

/-- `Downloader.__init__`: `self.filename = " "`, `self.file_size = 0`. -/
def Downloader.init (url : String) : Downloader :=
  ⟨url, " ", 0⟩

/-- Outcome of the pytube interactions inside `download_file`, following
the order of the statements in its `try` block. -/
inductive ResolveOutcome where
  /-- everything succeeds: title and stream byte size resolved, download completes. -/
  | okStream (title : String) (filesize : Nat)
  /-- `streams.filter(...).first()` returns `None` but `yt.title` resolves:
  `self.filename` is assigned, then `audio_file.filesize` raises `AttributeError`. -/
  | noStream (title : String)
  /-- `YouTube(url)`, `yt.streams` or `yt.title` raises before `self.filename`
  is assigned (bad url, network failure, unavailable video). -/
  | constructFailure (msg : String)
  /-- `audio_file.download()` raises after both attributes are assigned. -/
  | downloadFailure (title : String) (filesize : Nat) (msg : String)
deriving Repr, DecidableEq

/-- `Downloader.download_file`: the bare `except:` catches every exception
and only prints, so the method *always returns normally* (the return type
has no error channel); the attributes keep whatever was assigned before
the exception. -/
def download_file (d : Downloader) (out : ResolveOutcome) : Downloader :=
  match out with
  | ResolveOutcome.okStream title filesize =>
      { d with filename := title ++ ".mp4", file_size := filesize }
  | ResolveOutcome.noStream title =>
      { d with filename := title ++ ".mp4" }
  | ResolveOutcome.constructFailure _ => d
  | ResolveOutcome.downloadFailure title filesize _ =>
      { d with filename := title ++ ".mp4", file_size := filesize }

/-- `Downloader.__progress_check`:
`percent = (100 * (self.file_size - remaining)) / self.file_size`.
Python `/` raises `ZeroDivisionError` when `self.file_size` is `0`,
modelled as `none`; otherwise the exact quotient is reported. -/
def progress_check (file_size remaining : Int) : Option ℚ :=
  if file_size = 0 then none
  else some ((100 * ((file_size : ℚ) - (remaining : ℚ))) / (file_size : ℚ))

/-- The `Splitter` object's attributes, copied from the `Downloader`
by `Splitter.__init__`. -/
structure Splitter where
  url : String
  filename : String
deriving Repr, DecidableEq

/-- `Splitter.__init__(self, obj)`. -/
def Splitter.fromDownloader (d : Downloader) : Splitter :=
  ⟨d.url, d.filename⟩

/-- `main()`: builds the `Downloader`, calls `download_file`,
*unconditionally* builds the `Splitter` from it and calls `split_songs` —
there is no check between the stages. -/
def main_run (url : String) (out : ResolveOutcome) (loadable : String → Bool)
    (fetch : FetchOutcome) : List WrittenClip × Option SplitError :=
  let d := download_file (Downloader.init url) out
  let sp := Splitter.fromDownloader d
  split_songs_run sp.filename loadable fetch

/-- The clips that the `split_songs` loop writes for marker list `ts`
starting at 0-based loop index `i`, assuming every marker parses: clip
`i+1` spans from marker `i`'s offset to the next marker's offset, the last
clip's end is `None`. (Proof-side characterization of `splitGo`.) -/
def mkClips : List String → Nat → List WrittenClip
  | [], _ => []
  | [t], i => [⟨clipName (i + 1), offsetOf t, none⟩]
  | t :: next :: rest, i =>
      ⟨clipName (i + 1), offsetOf t, some (offsetOf next)⟩ :: mkClips (next :: rest) (i + 1)

theorem splitGo_nil (i : Nat) (fs : List WrittenClip) : splitGo [] i fs = (fs, none) := rfl

theorem splitGo_cons_bad (t : String) (rest : List String) (i : Nat) (fs : List WrittenClip)
    (h : time_str_to_tuple t = none) :
    splitGo (t :: rest) i fs = (fs, some (SplitError.malformedTime t)) := by
  cases rest <;> simp [splitGo, h]

theorem splitGo_single (t : String) (i : Nat) (fs : List WrittenClip) (st : List Int)
    (h : time_str_to_tuple t = some st) :
    splitGo [t] i fs = (fs ++ [⟨clipName (i + 1), st, none⟩], none) := by
  simp [splitGo, h]

theorem splitGo_cons2_badnext (t next : String) (rest : List String) (i : Nat)
    (fs : List WrittenClip) (st : List Int)
    (h : time_str_to_tuple t = some st) (h2 : time_str_to_tuple next = none) :
    splitGo (t :: next :: rest) i fs = (fs, some (SplitError.malformedTime next)) := by
  simp [splitGo, h, h2]

theorem splitGo_cons2 (t next : String) (rest : List String) (i : Nat)
    (fs : List WrittenClip) (st sn : List Int)
    (h : time_str_to_tuple t = some st) (h2 : time_str_to_tuple next = some sn) :
    splitGo (t :: next :: rest) i fs =
      splitGo (next :: rest) (i + 1) (fs ++ [⟨clipName (i + 1), st, some sn⟩]) := by
  conv_lhs => rw [splitGo]
  simp [h, h2]

theorem splitGo_valid (ts : List String) (hv : ∀ t ∈ ts, (time_str_to_tuple t).isSome) :
    ∀ (i : Nat) (fs : List WrittenClip), splitGo ts i fs = (fs ++ mkClips ts i, none) := by
  induction ts with
  | nil => intro i fs; simp [splitGo_nil, mkClips]
  | cons t rest ih =>
    intro i fs
    obtain ⟨st, hst⟩ := Option.isSome_iff_exists.mp (hv t (List.mem_cons_self t rest))
    cases rest with
    | nil =>
      rw [splitGo_single t i fs st hst]
      simp [mkClips, offsetOf, hst]
    | cons next rest' =>
      obtain ⟨sn, hsn⟩ :=
        Option.isSome_iff_exists.mp (hv next (List.mem_cons_of_mem t (List.mem_cons_self next rest')))
      rw [splitGo_cons2 t next rest' i fs st sn hst hsn,
        ih (fun x hx => hv x (List.mem_cons_of_mem t hx)) (i + 1)]
      simp [mkClips, offsetOf, hst, hsn]

theorem mkClips_length (ts : List String) : ∀ i, (mkClips ts i).length = ts.length := by
  induction ts with
  | nil => intro i; simp [mkClips]
  | cons t rest ih =>
    intro i
    cases rest with
    | nil => simp [mkClips]
    | cons next rest' => simp only [mkClips, List.length_cons, ih (i + 1)]

theorem mkClips_names (ts : List String) :
    ∀ i, (mkClips ts i).map WrittenClip.name = (List.range' (i + 1) ts.length).map clipName := by
  induction ts with
  | nil => intro i; simp [mkClips]
  | cons t rest ih =>
    intro i
    cases rest with
    | nil => simp [mkClips, List.range'_succ]
    | cons next rest' =>
      simp only [mkClips, List.map_cons, ih (i + 1), List.length_cons, List.range'_succ]

theorem mkClips_starts (ts : List String) :
    ∀ i, (mkClips ts i).map WrittenClip.start = ts.map offsetOf := by
  induction ts with
  | nil => intro i; simp [mkClips]
  | cons t rest ih =>
    intro i
    cases rest with
    | nil => simp [mkClips]
    | cons next rest' => simp only [mkClips, List.map_cons, ih (i + 1)]

theorem mkClips_stops (ts : List String) (h : ts ≠ []) :
    ∀ i, (mkClips ts i).map WrittenClip.stop =
      ts.tail.map (fun t => some (offsetOf t)) ++ [none] := by
  induction ts with
  | nil => exact absurd rfl h
  | cons t rest ih =>
    intro i
    cases rest with
    | nil => simp [mkClips]
    | cons next rest' =>
      simp only [mkClips, List.map_cons, ih (List.cons_ne_nil next rest') (i + 1),
        List.tail_cons, List.cons_append]

theorem mkClips_ne_nil (ts : List String) (h : ts ≠ []) : ∀ i, mkClips ts i ≠ [] := by
  cases ts with
  | nil => exact absurd rfl h
  | cons t rest =>
    intro i
    cases rest with
    | nil => simp [mkClips]
    | cons next rest' => simp [mkClips]

theorem splitGo_fail (bad : String) (hb : time_str_to_tuple bad = none) :
    ∀ (pre rest : List String), (∀ t ∈ pre, (time_str_to_tuple t).isSome) →
    ∀ (i : Nat) (fs : List WrittenClip),
    splitGo (pre ++ bad :: rest) i fs =
      (fs ++ (mkClips pre i).dropLast, some (SplitError.malformedTime bad)) := by
  intro pre
  induction pre with
  | nil =>
    intro rest hp i fs
    simp [splitGo_cons_bad bad rest i fs hb, mkClips]
  | cons p pre' ih =>
    intro rest hp i fs
    obtain ⟨sp, hsp⟩ := Option.isSome_iff_exists.mp (hp p (List.mem_cons_self p pre'))
    cases pre' with
    | nil =>
      simp [splitGo_cons2_badnext p bad rest i fs sp hsp hb, mkClips]
    | cons q pre'' =>
      obtain ⟨sq, hsq⟩ :=
        Option.isSome_iff_exists.mp (hp q (List.mem_cons_of_mem p (List.mem_cons_self q pre'')))
      have ih' := ih rest (fun x hx => hp x (List.mem_cons_of_mem p hx)) (i + 1)
        (fs ++ [⟨clipName (i + 1), sp, some sq⟩])
      rw [List.cons_append, List.cons_append,
        splitGo_cons2 p q (pre'' ++ bad :: rest) i fs sp sq hsp hsq]
      rw [List.cons_append] at ih'
      rw [ih']
      rw [mkClips, List.dropLast_cons_of_ne_nil
        (mkClips_ne_nil (q :: pre'') (List.cons_ne_nil q pre'') (i + 1))]
      simp [offsetOf, hsp, hsq]

theorem filter_hash_eq_specTimestampMarkers (l : List Anchor) :
    (l.filter (fun a => a.href == "#")).map (fun a => a.text) = specTimestampMarkers l := by
  induction l with
  | nil => rfl
  | cons a rest ih =>
    by_cases h : a.href = "#"
    · simp [List.filter_cons, h, specTimestampMarkers, ih]
    · simp [List.filter_cons, h, specTimestampMarkers, ih]

theorem specTimestampMarkers_nil_of_no_hash (l : List Anchor) (h : ∀ a ∈ l, a.href ≠ "#") :
    specTimestampMarkers l = [] := by
  induction l with
  | nil => rfl
  | cons a rest ih =>
    simp [specTimestampMarkers, h a (List.mem_cons_self a rest),
      ih (fun x hx => h x (List.mem_cons_of_mem a hx))]

/-- Claim C1 (code bug, evaluated at the failing input): on an HTTP failure
`__get_time_links` raises nothing and returns no tagged failure — it returns
Python `None` normally (`Except.ok none`), and `split_songs` then consumes it
and crashes with `TypeError` on `len(None)` instead of surfacing a page-fetch
error. -/
theorem c1_page_fetch_failure_silent_none :
    get_time_links (FetchOutcome.httpError "HTTP Error 404: Not Found") = Except.ok none ∧
    split_songs_run "audio.mp4" (fun _ => true)
        (FetchOutcome.httpError "HTTP Error 404: Not Found") =
      ([], some SplitError.lenOfNone) := by
  exact ⟨rfl, rfl⟩

/-- Claim C2 (code bug, evaluated at the failing input): when the video cannot
be resolved, `download_file` catches the exception broadly and returns
normally with the `Downloader` unchanged — its return type has no error
channel at all, so no `ResolutionError`-like failure can reach the caller. -/
theorem c2_resolution_failure_swallowed :
    download_file (Downloader.init "https://youtu.be/gone")
        (ResolveOutcome.constructFailure "video unavailable") =
      Downloader.init "https://youtu.be/gone" := by
  exact rfl

/-- Claim C3: for every marker sequence whose markers all parse,
`split_songs` raises nothing and writes exactly one file per marker, named
`clip1.mp3` … `clipN.mp3` in order; in particular zero markers yield zero
files and no error. -/
theorem c3_split_writes_n_ordered_clips (ts : List String)
    (hv : ∀ t ∈ ts, (time_str_to_tuple t).isSome) :
    (split_songs ts).2 = none ∧
    (split_songs ts).1.length = ts.length ∧
    (split_songs ts).1.map WrittenClip.name =
      (List.range ts.length).map (fun j => clipName (j + 1)) := by
  unfold split_songs
  rw [splitGo_valid ts hv 0 []]
  refine ⟨rfl, by simp [mkClips_length], ?_⟩
  have h1 : ∀ j : Nat, clipName (1 + j) = clipName (j + 1) := by
    intro j; rw [Nat.add_comm]
  simp [mkClips_names ts 0, List.range'_eq_map_range, List.map_map, Function.comp, h1]

theorem c3_split_writes_n_ordered_clips_witness :
    (split_songs ["0:00", "2:30"]).2 = none ∧
    (split_songs ["0:00", "2:30"]).1.length = (["0:00", "2:30"] : List String).length ∧
    (split_songs ["0:00", "2:30"]).1.map WrittenClip.name =
      (List.range (["0:00", "2:30"] : List String).length).map (fun j => clipName (j + 1)) :=
  c3_split_writes_n_ordered_clips ["0:00", "2:30"] (by decide)

/-- Claim C4: for every non-empty all-parsing marker sequence, clip `i`'s
start is the offset parsed from marker `i`, its end is the offset parsed
from marker `i+1`, and the last clip's end is the end-of-file sentinel
(`None` handed to `subclip`). -/
theorem c4_segment_boundaries (ts : List String)
    (hv : ∀ t ∈ ts, (time_str_to_tuple t).isSome) (hne : ts ≠ []) :
    (split_songs ts).1.map WrittenClip.start = ts.map offsetOf ∧
    (split_songs ts).1.map WrittenClip.stop =
      ts.tail.map (fun t => some (offsetOf t)) ++ [none] := by
  unfold split_songs
  rw [splitGo_valid ts hv 0 []]
  simp [mkClips_starts, mkClips_stops ts hne]

theorem c4_segment_boundaries_witness :
    (split_songs ["0:00", "2:30", "5:15"]).1.map WrittenClip.start =
      (["0:00", "2:30", "5:15"] : List String).map offsetOf ∧
    (split_songs ["0:00", "2:30", "5:15"]).1.map WrittenClip.stop =
      (["0:00", "2:30", "5:15"] : List String).tail.map (fun t => some (offsetOf t)) ++ [none] :=
  c4_segment_boundaries ["0:00", "2:30", "5:15"] (by decide) (by decide)

/-- Claim C5 (code bug, evaluated at the failing input): the percentage
computation in `__progress_check` is unguarded — whenever `file_size` is
`0`, the division raises `ZeroDivisionError` (modelled as `none`) instead of
reporting 0% or omitting the report. -/
theorem c5_progress_division_by_zero :
    progress_check 0 0 = none ∧ progress_check 0 512 = none := by
  exact ⟨rfl, rfl⟩

/-- Claim C6: `__time_str_to_tuple` maps `"3:45"` to `(3, 45)` and
`"1:02:10"` to `(1, 2, 10)`, and raises (the spec's
`MalformedTimestampError`) on the non-numeric inputs `"abc"` and `""`. -/
theorem c6_parse_offset_examples :
    time_str_to_tuple "3:45" = some [3, 45] ∧
    time_str_to_tuple "1:02:10" = some [1, 2, 10] ∧
    time_str_to_tuple "abc" = none ∧
    time_str_to_tuple "" = none := by
  refine ⟨by decide, by decide, by decide, by decide⟩

/-- Claim C7 (code bug, evaluated at the failing inputs): `__time_str_to_tuple`
performs no field-count check — contrary to the claim and to its own
docstring ("either (mm,ss) or (hh,mm,ss)"), it happily returns a 1-tuple for
`"5"` and a 4-tuple for `"1:2:3:4"` instead of failing. -/
theorem c7_no_field_count_check :
    time_str_to_tuple "5" = some [5] ∧
    time_str_to_tuple "1:2:3:4" = some [1, 2, 3, 4] := by
  refine ⟨by decide, by decide⟩

/-- Claim C8: on a successfully fetched page, `__get_time_links` returns
exactly the text of every anchor whose `href` equals `"#"`, in page order
(stated against the spec-worded `specTimestampMarkers`), and returns the
empty sequence when no such anchor exists. -/
theorem c8_time_links_extraction (anchors : List Anchor) :
    get_time_links (FetchOutcome.page anchors) =
      Except.ok (some (specTimestampMarkers anchors)) ∧
    ((∀ a ∈ anchors, a.href ≠ "#") →
      get_time_links (FetchOutcome.page anchors) = Except.ok (some [])) := by
  constructor
  · simp [get_time_links, filter_hash_eq_specTimestampMarkers]
  · intro h
    simp [get_time_links, filter_hash_eq_specTimestampMarkers,
      specTimestampMarkers_nil_of_no_hash anchors h]

theorem c8_time_links_extraction_witness :
    get_time_links (FetchOutcome.page [⟨"https://example.com", "not a time link"⟩]) =
      Except.ok (some []) :=
  (c8_time_links_extraction [⟨"https://example.com", "not a time link"⟩]).2 (by decide)

/-- Claim C9: when `split_songs` fails on a malformed marker, every clip
already written for the earlier markers stays on disk exactly as written —
the result is the valid prefix's clips minus only the clip whose end
timestamp failed to parse, and nothing is rolled back. -/
theorem c9_partial_clips_preserved (pre : List String) (bad : String) (rest : List String)
    (hp : ∀ t ∈ pre, (time_str_to_tuple t).isSome)
    (hb : time_str_to_tuple bad = none) :
    split_songs (pre ++ bad :: rest) =
      ((split_songs pre).1.dropLast, some (SplitError.malformedTime bad)) := by
  unfold split_songs
  rw [splitGo_fail bad hb pre rest hp 0 [], splitGo_valid pre hp 0 []]
  simp

theorem c9_partial_clips_preserved_witness :
    split_songs (["0:00", "2:30"] ++ "abc" :: ["5:15"]) =
      ((split_songs ["0:00", "2:30"]).1.dropLast, some (SplitError.malformedTime "abc")) :=
  c9_partial_clips_preserved ["0:00", "2:30"] "abc" ["5:15"] (by decide) (by decide)

/-- Claim C10 (counterexample): resolution can fail *after* the filename
assignment — when no matching audio-only stream exists, `first()` returns
`None`, `self.filename` is set to the resolved title before
`audio_file.filesize` raises, so `download_file` returns with a filename
that is not the constructor placeholder `" "`. -/
theorem c10_filename_not_placeholder_counterexample :
    download_file (Downloader.init "https://youtu.be/x") (ResolveOutcome.noStream "Album") =
      ⟨"https://youtu.be/x", "Album.mp4", 0⟩ ∧
    ("Album.mp4" : String) ≠ " " := by
  exact ⟨rfl, by decide⟩

/-- Claim C10 as amended: `download_file` always returns normally; when the
failure occurs before the filename assignment (the video cannot be located),
the `Downloader` keeps the placeholder filename `" "` and size `0`, and
`main` then unconditionally builds a `Splitter` and calls `split_songs`,
which attempts to open an audio file literally named `" "` — the pipeline
never short-circuits after a download failure. -/
theorem c10_pipeline_no_short_circuit (url msg : String) (fetch : FetchOutcome)
    (loadable : String → Bool) (hload : loadable " " = false) :
    download_file (Downloader.init url) (ResolveOutcome.constructFailure msg) =
      Downloader.init url ∧
    main_run url (ResolveOutcome.constructFailure msg) loadable fetch =
      ([], some (SplitError.audioLoad " ")) := by
  refine ⟨rfl, ?_⟩
  unfold main_run split_songs_run
  simp [download_file, Downloader.init, Splitter.fromDownloader, hload]

theorem c10_pipeline_no_short_circuit_witness :
    download_file (Downloader.init "u") (ResolveOutcome.constructFailure "err") =
      Downloader.init "u" ∧
    main_run "u" (ResolveOutcome.constructFailure "err") (fun _ => false)
        (FetchOutcome.page []) =
      ([], some (SplitError.audioLoad " ")) :=
  c10_pipeline_no_short_circuit "u" "err" (FetchOutcome.page []) (fun _ => false) rfl
